import Mathlib

/-!
Verification of the Octant Knative plugin (`src/knative.ts`).

The TypeScript source is shallowly embedded: JS strings become `String`,
JS objects used as string maps become association lists, fallible host
client calls (which may throw) become `Except String`, and
`Array.prototype.sort` — specified by ECMAScript as a stable sort
consistent with the comparator — is modelled as a stable insertion sort
driven by the comparator's sign.  `String.prototype.localeCompare` is
modelled as code-point lexicographic comparison.
-/

/-! ## JavaScript string primitives -/

/-- `v || fallback` on an optional JS string: `undefined` and the empty
string (both falsy) yield the fallback. -/
def jsOrElse (v : Option String) (fallback : String) : String :=
  match v with
  | none => fallback
  | some s => if s = "" then fallback else s

/-- `s.startsWith(search)`. -/
def jsStartsWith (s search : String) : Bool :=
  search.data.isPrefixOf s.data

/-- `s.split("/")` at the character-list level: split at every `'/'`,
keeping empty pieces, like the JS method with a one-character separator. -/
def splitSlash : List Char → List (List Char)
  | [] => [[]]
  | c :: cs =>
    if c = '/' then [] :: splitSlash cs
    else
      match splitSlash cs with
      | [] => [[c]]
      | h :: t => (c :: h) :: t

/-- `s.split("/")`. -/
def jsSplitSlash (s : String) : List String :=
  (splitSlash s.data).map (fun cs => { data := cs })

/-- Whitespace skipped by `parseInt`. -/
def jsWhitespace (c : Char) : Bool :=
  c = ' ' || c = '\t' || c = '\n' || c = '\r'

/-- Value of a single digit character, hex digits included. -/
def digitVal (c : Char) : Option Nat :=
  if '0' ≤ c ∧ c ≤ '9' then some (c.toNat - '0'.toNat)
  else if 'a' ≤ c ∧ c ≤ 'f' then some (c.toNat - 'a'.toNat + 10)
  else if 'A' ≤ c ∧ c ≤ 'F' then some (c.toNat - 'A'.toNat + 10)
  else none

/-- Accumulate the longest leading run of digits valid in `base`. -/
def parseDigits (base : Nat) (acc : Nat) : List Char → Nat
  | [] => acc
  | c :: cs =>
    match digitVal c with
    | some d => if d < base then parseDigits base (acc * base + d) cs else acc
    | none => acc

/-- Whether the list begins with a digit valid in `base`. -/
def hasDigit (base : Nat) : List Char → Bool
  | [] => false
  | c :: _ =>
    match digitVal c with
    | some d => decide (d < base)
    | none => false

/-- JS `parseInt(s)` with no radix argument: skip leading whitespace, an
optional sign, auto-detect a `0x`/`0X` hex prefix, then read the longest
leading digit run; `none` models `NaN`. -/
def jsParseInt (s : String) : Option Int :=
  let cs := s.data.dropWhile jsWhitespace
  let signAndRest : Int × List Char :=
    match cs with
    | '-' :: rest => (-1, rest)
    | '+' :: rest => (1, rest)
    | _ => (1, cs)
  let baseAndRest : Nat × List Char :=
    match signAndRest.2 with
    | '0' :: 'x' :: rest => (16, rest)
    | '0' :: 'X' :: rest => (16, rest)
    | _ => (10, signAndRest.2)
  if hasDigit baseAndRest.1 baseAndRest.2 then
    some (signAndRest.1 * (parseDigits baseAndRest.1 0 baseAndRest.2 : Nat))
  else
    none

/-! ## `Array.prototype.sort` model

ECMAScript specifies `sort(comparator)` as a stable sort whose output is
consistent with the comparator whenever the comparator is consistent.  A
stable insertion sort is such a sort: each element is inserted in front of
the first element it compares strictly below (`comparator ≤ 0` fails only
on strictly greater elements), which also keeps equal elements in input
order.  `le a b` models `comparator(a, b) <= 0`; a `NaN` comparator result
(possible here when a generation label does not parse) models as `false`. -/

def orderedInsert (le : α → α → Bool) (a : α) : List α → List α
  | [] => [a]
  | b :: l => if le a b then a :: b :: l else b :: orderedInsert le a l

def insertionSort (le : α → α → Bool) : List α → List α
  | [] => []
  | a :: l => orderedInsert le a (insertionSort le l)

/-! ## Kubernetes object model

The plugin reads only `apiVersion`, `kind` and `metadata` from the objects
the host client returns; `spec`/`status` are passed through opaquely inside
the object value itself, so a single record models Service, Configuration,
Route and Revision alike.  `namespace` is a Lean keyword, so the field is
called `nspace` throughout. -/

structure ObjectMeta where
  name : Option String
  nspace : Option String
  labels : Option (List (String × String))
  deriving Repr, DecidableEq

structure KubeObject where
  apiVersion : String
  kind : String
  metadata : ObjectMeta
  deriving Repr, DecidableEq

abbrev Service := KubeObject
abbrev Configuration := KubeObject
abbrev Route := KubeObject
abbrev Revision := KubeObject

/-! ## Host client -/

structure GetRequest where
  apiVersion : String
  kind : String
  nspace : String
  name : String
  deriving Repr, DecidableEq

/-- A `List` request; `selector` is absent on the listing calls.  A
selector value is the raw `service.metadata.name` expression, hence an
`Option String`. -/
structure ListRequest where
  apiVersion : String
  kind : String
  nspace : String
  selector : Option (List (String × Option String))
  deriving Repr, DecidableEq

/-- The host-supplied `dashboardClient`; its calls may throw, modelled by
`Except String`. -/
structure DashboardClient where
  get : GetRequest → Except String KubeObject
  list : ListRequest → Except String (List KubeObject)

/-! ## Comparators used by the plugin -/

/-- `a.metadata.name || ''`. -/
def nameOrEmpty (o : KubeObject) : String :=
  jsOrElse o.metadata.name ""

/-- `(a.metadata.name || '').localeCompare(b.metadata.name || '') <= 0`,
with `localeCompare` modelled as code-point comparison. -/
def byNameLe (a b : KubeObject) : Bool :=
  decide (nameOrEmpty a ≤ nameOrEmpty b)

def configurationGenerationLabel : String :=
  "serving.knative.dev/configurationGeneration"

/-- `(r.metadata.labels || {})['serving.knative.dev/configurationGeneration'] || '-1'`. -/
def generationStr (r : Revision) : String :=
  jsOrElse ((r.metadata.labels.getD []).lookup configurationGenerationLabel) "-1"

/-- `parseInt` of the effective generation string; `none` models `NaN`. -/
def effGen (r : Revision) : Option Int :=
  jsParseInt (generationStr r)

/-- The revision comparator `parseInt(generationA) - parseInt(generationB)`
as the test `comparator <= 0`; a `NaN` difference is not `<= 0`. -/
def revLe (a b : Revision) : Bool :=
  match effGen a, effGen b with
  | some x, some y => decide (x - y ≤ 0)
  | _, _ => false

def sortByName (l : List KubeObject) : List KubeObject :=
  insertionSort byNameLe l

def sortRevisions (l : List Revision) : List Revision :=
  insertionSort revLe l

/-! ## View model

The octant component factories under `src/octant` and `src/serving` are
rendering glue outside the verified source; each factory is modelled as a
constructor carrying exactly the data the plugin hands it.  The
`EditorFactory` value is the YAML serialization of the whole object, so the
editor constructor carries the object itself.  `factoryMetadata` is the
optional title component list. -/

inductive Component where
  | text (value : String)
  | link (value ref : String)
  | list (items : List Component) (factoryMetadata : Option (List Component))
  | serviceList (services : List Service) (factoryMetadata : Option (List Component))
  | configurationList (configurations : List Configuration) (factoryMetadata : Option (List Component))
  | routeList (routes : List Route) (factoryMetadata : Option (List Component))
  | serviceSummary (service : Service) (revisions : List Revision)
  | configurationSummary (configuration : Configuration) (revisions : List Revision)
  | routeSummary (route : Route)
  | editor (obj : KubeObject)
  deriving Repr

structure ButtonPayload where
  action : String
  apiVersion : String
  kind : String
  nspace : String
  name : String
  deriving Repr, DecidableEq

structure Button where
  name : String
  payload : ButtonPayload
  confirmationTitle : String
  confirmationBody : String
  deriving Repr, DecidableEq

/-- `h.createContentResponse(title, components[, buttonGroup])`. -/
structure ContentResponse where
  title : List Component
  components : List Component
  buttonGroup : Option (List Button)
  deriving Repr

/-! ## Navigation -/

structure NavigationEntry where
  title : String
  path : String
  deriving Repr, DecidableEq

/-- Modelled from the spec: the `h.Navigation` helper
(`src/octant/component-helpers`) is not under `src/`; the spec only says the
plugin "registers navigation entries", so the helper is modelled as a record
keeping the constructor arguments and the added entries verbatim, in order. -/
structure Navigation where
  title : String
  path : String
  icon : String
  children : List NavigationEntry
  deriving Repr, DecidableEq

/-- Modelled from the spec: `new h.Navigation(title, path, icon)`. -/
def Navigation.make (title path icon : String) : Navigation :=
  { title := title, path := path, icon := icon, children := [] }

/-- Modelled from the spec: `nav.add(title, path)` appends an entry. -/
def Navigation.add (nav : Navigation) (title path : String) : Navigation :=
  { nav with children := nav.children ++ [{ title := title, path := path }] }

/-! ## Plugin state and requests -/

/-- The mutable plugin instance: the only mutable custom property is
`this.namespace` (field `nspace`); the static fields are carried so that
frame conditions can be stated. -/
structure MyPlugin where
  name : String
  description : String
  isModule : Bool
  nspace : String
  deriving Repr, DecidableEq

/-- The constructor body: `this.namespace = "default"`. -/
def MyPlugin.start : MyPlugin :=
  { name := "knative", description := "Knative plugin for Octant",
    isModule := true, nspace := "default" }

structure Capabilities where
  supportPrinterConfig : List String
  supportTab : List String
  actionNames : List String
  deriving Repr, DecidableEq

def capabilities : Capabilities :=
  { supportPrinterConfig := [], supportTab := [],
    actionNames := ["knative/testAction", "action.octant.dev/setNamespace"] }

structure ContentRequest where
  contentPath : String
  deriving Repr, DecidableEq

structure ActionPayload where
  nspace : String
  deriving Repr, DecidableEq

structure ActionRequest where
  actionName : String
  payload : ActionPayload
  deriving Repr, DecidableEq

structure ObjectRequest where
  object : KubeObject
  deriving Repr, DecidableEq

structure PrintResponse where
  items : List Component
  deriving Repr

structure TabResponse where
  tab : Component
  deriving Repr

/-! ## Simple handlers -/

def printHandler (_p : MyPlugin) (_request : ObjectRequest) : Except String PrintResponse :=
  .error "KnativePlugin#printHandler should never be called"

def tabHandler (_p : MyPlugin) (_request : ObjectRequest) : Except String TabResponse :=
  .error "KnativePlugin#tabHandler should never be called"

/-- `actionHandler` returns the updated plugin (TS mutates `this`) and the
returned value, which is `undefined` on every path. -/
def actionHandler (p : MyPlugin) (request : ActionRequest) : MyPlugin × Option Unit :=
  if request.actionName = "action.octant.dev/setNamespace" then
    ({ p with nspace := request.payload.nspace }, none)
  else
    (p, none)

def navigationHandler (_p : MyPlugin) : Navigation :=
  (((Navigation.make "Knative" "knative" "cloud").add
      "Services" "services").add
      "Configurations" "configurations").add
      "Routes" "routes"

/-! ## Client requests issued by the listing/detail functions -/

def servicesListReq (p : MyPlugin) : ListRequest :=
  { apiVersion := "serving.knative.dev/v1", kind := "Service",
    nspace := p.nspace, selector := none }

def configurationsListReq (p : MyPlugin) : ListRequest :=
  { apiVersion := "serving.knative.dev/v1", kind := "Configuration",
    nspace := p.nspace, selector := none }

def routesListReq (p : MyPlugin) : ListRequest :=
  { apiVersion := "serving.knative.dev/v1", kind := "Route",
    nspace := p.nspace, selector := none }

def getServiceReq (p : MyPlugin) (name : String) : GetRequest :=
  { apiVersion := "serving.knative.dev/v1", kind := "Service",
    nspace := p.nspace, name := name }

def getConfigurationReq (p : MyPlugin) (name : String) : GetRequest :=
  { apiVersion := "serving.knative.dev/v1", kind := "Configuration",
    nspace := p.nspace, name := name }

def getRouteReq (p : MyPlugin) (name : String) : GetRequest :=
  { apiVersion := "serving.knative.dev/v1", kind := "Route",
    nspace := p.nspace, name := name }

def revisionsForServiceReq (p : MyPlugin) (serviceName : Option String) : ListRequest :=
  { apiVersion := "serving.knative.dev/v1", kind := "Revision",
    nspace := p.nspace,
    selector := some [("serving.knative.dev/service", serviceName)] }

def revisionsForConfigurationReq (p : MyPlugin) (configurationName : Option String) : ListRequest :=
  { apiVersion := "serving.knative.dev/v1", kind := "Revision",
    nspace := p.nspace,
    selector := some [("serving.knative.dev/configuration", configurationName)] }

/-! ## Listing and detail bodies -/

def serviceListing (p : MyPlugin) (client : DashboardClient)
    (factoryMetadata : Option (List Component)) : Except String Component :=
  match client.list (servicesListReq p) with
  | .error e => .error e
  | .ok services => .ok (.serviceList (sortByName services) factoryMetadata)

def configurationListing (p : MyPlugin) (client : DashboardClient)
    (factoryMetadata : Option (List Component)) : Except String Component :=
  match client.list (configurationsListReq p) with
  | .error e => .error e
  | .ok configurations => .ok (.configurationList (sortByName configurations) factoryMetadata)

def routeListing (p : MyPlugin) (client : DashboardClient)
    (factoryMetadata : Option (List Component)) : Except String Component :=
  match client.list (routesListReq p) with
  | .error e => .error e
  | .ok routes => .ok (.routeList (sortByName routes) factoryMetadata)

def serviceDetail (p : MyPlugin) (client : DashboardClient) (name : String) :
    Except String (List Component) :=
  match client.get (getServiceReq p name) with
  | .error e => .error e
  | .ok service =>
    match client.list (revisionsForServiceReq p service.metadata.name) with
    | .error e => .error e
    | .ok revisions =>
      .ok [.serviceSummary service (sortRevisions revisions), .editor service]

def configurationDetail (p : MyPlugin) (client : DashboardClient) (name : String) :
    Except String (List Component) :=
  match client.get (getConfigurationReq p name) with
  | .error e => .error e
  | .ok configuration =>
    match client.list (revisionsForConfigurationReq p configuration.metadata.name) with
    | .error e => .error e
    | .ok revisions =>
      .ok [.configurationSummary configuration (sortRevisions revisions), .editor configuration]

def routeDetail (p : MyPlugin) (client : DashboardClient) (name : String) :
    Except String (List Component) :=
  match client.get (getRouteReq p name) with
  | .error e => .error e
  | .ok route =>
    .ok [.routeSummary route, .editor route]

/-! ## Page handlers -/

def knativeOverviewHandler (p : MyPlugin) (client : DashboardClient)
    (_request : ContentRequest) : Except String ContentResponse :=
  match serviceListing p client (some [.text "Services"]) with
  | .error e => .error e
  | .ok servicesItem =>
    match configurationListing p client (some [.text "Configurations"]) with
    | .error e => .error e
    | .ok configurationsItem =>
      match routeListing p client (some [.text "Routes"]) with
      | .error e => .error e
      | .ok routesItem =>
        .ok { title := [.text "Knative"],
              components := [.list [servicesItem, configurationsItem, routesItem]
                               (some [.text "Knative"])],
              buttonGroup := none }

def serviceListingHandler (p : MyPlugin) (client : DashboardClient)
    (_request : ContentRequest) : Except String ContentResponse :=
  match serviceListing p client (some [.text "Services"]) with
  | .error e => .error e
  | .ok item =>
    .ok { title := [.link "Knative" "/knative", .text "Services"],
          components := [.list [item]
                           (some [.link "Knative" "/knative", .text "Services"])],
          buttonGroup := none }

def configurationListingHandler (p : MyPlugin) (client : DashboardClient)
    (_request : ContentRequest) : Except String ContentResponse :=
  match configurationListing p client (some [.text "Configurations"]) with
  | .error e => .error e
  | .ok item =>
    .ok { title := [.link "Knative" "/knative", .text "Configurations"],
          components := [.list [item]
                           (some [.link "Knative" "/knative", .text "Configurations"])],
          buttonGroup := none }

def routeListingHandler (p : MyPlugin) (client : DashboardClient)
    (_request : ContentRequest) : Except String ContentResponse :=
  match routeListing p client (some [.text "Routes"]) with
  | .error e => .error e
  | .ok item =>
    .ok { title := [.link "Knative" "/knative", .text "Routes"],
          components := [.list [item]
                           (some [.link "Knative" "/knative", .text "Routes"])],
          buttonGroup := none }

/-- `request.contentPath.split("/")[2]`; an out-of-range index is modelled
as the empty string (it is in range whenever the routing prefix matched). -/
def detailName (request : ContentRequest) : String :=
  (jsSplitSlash request.contentPath).getD 2 ""

def serviceDetailButton (p : MyPlugin) (name : String) : Button :=
  { name := "Delete",
    payload := { action := "action.octant.dev/deleteObject",
                 apiVersion := "serving.knative.dev/v1", kind := "Service",
                 nspace := p.nspace, name := name },
    confirmationTitle := "Delete Service",
    confirmationBody := "Are you sure you want to delete *Service* **" ++ name
      ++ "**? This action is permanent and cannot be recovered." }

def configurationDetailButton (p : MyPlugin) (name : String) : Button :=
  { name := "Delete",
    payload := { action := "action.octant.dev/deleteObject",
                 apiVersion := "serving.knative.dev/v1", kind := "Configuration",
                 nspace := p.nspace, name := name },
    confirmationTitle := "Delete Configuration",
    confirmationBody := "Are you sure you want to delete *Configuration* **" ++ name
      ++ "**? This action is permanent and cannot be recovered." }

def routeDetailButton (p : MyPlugin) (name : String) : Button :=
  { name := "Delete",
    payload := { action := "action.octant.dev/deleteObject",
                 apiVersion := "serving.knative.dev/v1", kind := "Route",
                 nspace := p.nspace, name := name },
    confirmationTitle := "Delete Route",
    confirmationBody := "Are you sure you want to delete *Route* **" ++ name
      ++ "**? This action is permanent and cannot be recovered." }

def serviceDetailHandler (p : MyPlugin) (client : DashboardClient)
    (request : ContentRequest) : Except String ContentResponse :=
  let name := detailName request
  match serviceDetail p client name with
  | .error e => .error e
  | .ok body =>
    .ok { title := [.link "Knative" "/knative", .link "Services" "/knative/services",
                    .text name],
          components := body,
          buttonGroup := some [serviceDetailButton p name] }

def configurationDetailHandler (p : MyPlugin) (client : DashboardClient)
    (request : ContentRequest) : Except String ContentResponse :=
  let name := detailName request
  match configurationDetail p client name with
  | .error e => .error e
  | .ok body =>
    .ok { title := [.link "Knative" "/knative",
                    .link "Configurations" "/knative/configurations", .text name],
          components := body,
          buttonGroup := some [configurationDetailButton p name] }

def routeDetailHandler (p : MyPlugin) (client : DashboardClient)
    (request : ContentRequest) : Except String ContentResponse :=
  let name := detailName request
  match routeDetail p client name with
  | .error e => .error e
  | .ok body =>
    .ok { title := [.link "Knative" "/knative", .link "Routes" "/knative/routes",
                    .text name],
          components := body,
          buttonGroup := some [routeDetailButton p name] }

/-- The not-found response: `createContentResponse([notFound], [notFound])`
with `notFound = TextFactory("Not Found - " + contentPath)`. -/
def notFoundResponse (contentPath : String) : ContentResponse :=
  { title := [.text ("Not Found - " ++ contentPath)],
    components := [.text ("Not Found - " ++ contentPath)],
    buttonGroup := none }

def contentHandler (p : MyPlugin) (client : DashboardClient)
    (request : ContentRequest) : Except String ContentResponse :=
  let contentPath := request.contentPath
  if contentPath = "" then
    knativeOverviewHandler p client request
  else if contentPath = "/services" then
    serviceListingHandler p client request
  else if jsStartsWith contentPath "/services/" = true then
    serviceDetailHandler p client request
  else if contentPath = "/configurations" then
    configurationListingHandler p client request
  else if jsStartsWith contentPath "/configurations/" = true then
    configurationDetailHandler p client request
  else if contentPath = "/routes" then
    routeListingHandler p client request
  else if jsStartsWith contentPath "/routes/" = true then
    routeDetailHandler p client request
  else
    .ok (notFoundResponse contentPath)

/-! ## Sort lemmas -/

theorem perm_orderedInsert (le : α → α → Bool) (a : α) :
    ∀ l : List α, List.Perm (orderedInsert le a l) (a :: l)
  | [] => List.Perm.refl _
  | b :: l => by
    by_cases h : le a b
    · simp [orderedInsert, h]
    · simpa [orderedInsert, h] using
        ((perm_orderedInsert le a l).cons b).trans (List.Perm.swap a b l)

theorem perm_insertionSort (le : α → α → Bool) :
    ∀ l : List α, List.Perm (insertionSort le l) l
  | [] => List.Perm.nil
  | a :: l => by
    simpa [insertionSort] using
      (perm_orderedInsert le a (insertionSort le l)).trans
        ((perm_insertionSort le l).cons a)

theorem mem_orderedInsert (le : α → α → Bool) {a b : α} {l : List α} :
    b ∈ orderedInsert le a l ↔ b = a ∨ b ∈ l :=
  (perm_orderedInsert le a l).mem_iff.trans List.mem_cons

/-- Invariant preservation for one insertion step.  `good` is any relation
such that the comparator's verdict forces it in both directions
(`h₂` handles the "keep scanning" branch) and pushes through one
comparator step (`h₁` and `h₁t` handle the "insert here" branch). -/
theorem pairwise_orderedInsert_of (le : α → α → Bool) (good : α → α → Prop)
    (h₁ : ∀ x y, le x y = true → good x y)
    (h₁t : ∀ x y z, le x y = true → good y z → good x z)
    (h₂ : ∀ x y, le x y = false → good y x)
    (a : α) : ∀ l : List α, l.Pairwise good → (orderedInsert le a l).Pairwise good
  | [], _ => List.pairwise_singleton good a
  | b :: l, h => by
    rcases List.pairwise_cons.mp h with ⟨hb, hl⟩
    by_cases hab : le a b
    · rw [orderedInsert, if_pos hab]
      refine List.pairwise_cons.mpr ⟨?_, h⟩
      intro z hz
      rcases List.mem_cons.mp hz with rfl | hz
      · exact h₁ a z hab
      · exact h₁t a b z hab (hb z hz)
    · rw [orderedInsert, if_neg hab]
      refine List.pairwise_cons.mpr ⟨?_, pairwise_orderedInsert_of le good h₁ h₁t h₂ a l hl⟩
      intro z hz
      rcases (mem_orderedInsert le).mp hz with hza | hzl
      · rw [hza]
        exact h₂ a b (Bool.of_not_eq_true hab)
      · exact hb z hzl

theorem pairwise_insertionSort_of (le : α → α → Bool) (good : α → α → Prop)
    (h₁ : ∀ x y, le x y = true → good x y)
    (h₁t : ∀ x y z, le x y = true → good y z → good x z)
    (h₂ : ∀ x y, le x y = false → good y x) :
    ∀ l : List α, (insertionSort le l).Pairwise good
  | [] => List.Pairwise.nil
  | a :: l =>
    pairwise_orderedInsert_of le good h₁ h₁t h₂ a (insertionSort le l)
      (pairwise_insertionSort_of le good h₁ h₁t h₂ l)

/-! ## Routing lemmas -/

theorem data_prefix_of_startsWith {s pre : String} (h : jsStartsWith s pre = true) :
    pre.data <+: s.data :=
  List.isPrefixOf_iff_prefix.mp h

/-- A string that starts with `pre` differs from any literal that does not. -/
theorem ne_lit_of_startsWith {s pre : String} (q : String)
    (h : jsStartsWith s pre = true) (hq : jsStartsWith q pre = false) :
    s ≠ q := by
  intro he
  rw [he, hq] at h
  exact Bool.false_ne_true h

/-- Two incomparable literals cannot both be prefixes of `s`. -/
theorem not_startsWith_of_startsWith {s a b : String}
    (h : jsStartsWith s a = true)
    (hab : a.data.isPrefixOf b.data = false)
    (hba : b.data.isPrefixOf a.data = false) :
    jsStartsWith s b = false := by
  by_contra hb
  have hb' : jsStartsWith s b = true := by
    cases hsb : jsStartsWith s b
    · exact absurd hsb hb
    · rfl
  rcases List.prefix_or_prefix_of_prefix (data_prefix_of_startsWith h) (data_prefix_of_startsWith hb') with
    hp | hp
  · exact absurd ( List.isPrefixOf_iff_prefix.mpr hp) (by simp [hab])
  · exact absurd ( List.isPrefixOf_iff_prefix.mpr hp) (by simp [hba])

theorem route_overview (p : MyPlugin) (client : DashboardClient) (r : ContentRequest)
    (h : r.contentPath = "") :
    contentHandler p client r = knativeOverviewHandler p client r := by
  simp [contentHandler, h]

theorem route_serviceListing (p : MyPlugin) (client : DashboardClient) (r : ContentRequest)
    (h : r.contentPath = "/services") :
    contentHandler p client r = serviceListingHandler p client r := by
  simp [contentHandler, h]

theorem route_serviceDetail (p : MyPlugin) (client : DashboardClient) (r : ContentRequest)
    (h : jsStartsWith r.contentPath "/services/" = true) :
    contentHandler p client r = serviceDetailHandler p client r := by
  have h0 : r.contentPath ≠ "" := ne_lit_of_startsWith "" h (by decide)
  have h1 : r.contentPath ≠ "/services" := ne_lit_of_startsWith "/services" h (by decide)
  simp [contentHandler, h0, h1, h]

theorem route_configurationListing (p : MyPlugin) (client : DashboardClient)
    (r : ContentRequest) (h : r.contentPath = "/configurations") :
    contentHandler p client r = configurationListingHandler p client r := by
  have h2 : jsStartsWith "/configurations" "/services/" = false := by decide
  simp [contentHandler, h, h2]

theorem route_configurationDetail (p : MyPlugin) (client : DashboardClient)
    (r : ContentRequest) (h : jsStartsWith r.contentPath "/configurations/" = true) :
    contentHandler p client r = configurationDetailHandler p client r := by
  have h0 : r.contentPath ≠ "" := ne_lit_of_startsWith "" h (by decide)
  have h1 : r.contentPath ≠ "/services" := ne_lit_of_startsWith "/services" h (by decide)
  have h2 : jsStartsWith r.contentPath "/services/" = false :=
    not_startsWith_of_startsWith h (by decide) (by decide)
  have h3 : r.contentPath ≠ "/configurations" :=
    ne_lit_of_startsWith "/configurations" h (by decide)
  simp [contentHandler, h0, h1, h2, h3, h]

theorem route_routeListing (p : MyPlugin) (client : DashboardClient) (r : ContentRequest)
    (h : r.contentPath = "/routes") :
    contentHandler p client r = routeListingHandler p client r := by
  have h2 : jsStartsWith "/routes" "/services/" = false := by decide
  have h4 : jsStartsWith "/routes" "/configurations/" = false := by decide
  simp [contentHandler, h, h2, h4]

theorem route_routeDetail (p : MyPlugin) (client : DashboardClient) (r : ContentRequest)
    (h : jsStartsWith r.contentPath "/routes/" = true) :
    contentHandler p client r = routeDetailHandler p client r := by
  have h0 : r.contentPath ≠ "" := ne_lit_of_startsWith "" h (by decide)
  have h1 : r.contentPath ≠ "/services" := ne_lit_of_startsWith "/services" h (by decide)
  have h2 : jsStartsWith r.contentPath "/services/" = false :=
    not_startsWith_of_startsWith h (by decide) (by decide)
  have h3 : r.contentPath ≠ "/configurations" :=
    ne_lit_of_startsWith "/configurations" h (by decide)
  have h4 : jsStartsWith r.contentPath "/configurations/" = false :=
    not_startsWith_of_startsWith h (by decide) (by decide)
  have h5 : r.contentPath ≠ "/routes" := ne_lit_of_startsWith "/routes" h (by decide)
  simp [contentHandler, h0, h1, h2, h3, h4, h5, h]

theorem route_notFound (p : MyPlugin) (client : DashboardClient) (r : ContentRequest)
    (h0 : r.contentPath ≠ "") (h1 : r.contentPath ≠ "/services")
    (h2 : jsStartsWith r.contentPath "/services/" = false)
    (h3 : r.contentPath ≠ "/configurations")
    (h4 : jsStartsWith r.contentPath "/configurations/" = false)
    (h5 : r.contentPath ≠ "/routes")
    (h6 : jsStartsWith r.contentPath "/routes/" = false) :
    contentHandler p client r = .ok (notFoundResponse r.contentPath) := by
  simp [contentHandler, h0, h1, h2, h3, h4, h5, h6]

/-! ## Concrete fixtures used by witnesses -/

/-- A trivial host client: every `Get` throws, every `List` returns `[]`. -/
def emptyClient : DashboardClient :=
  { get := fun _ => .error "object not found", list := fun _ => .ok [] }

/-! ## Claims -/

/-- C1: `contentHandler` dispatches by string matching on `contentPath`: the
empty path yields the overview, the exact paths `/services`,
`/configurations`, `/routes` yield the listing pages, paths starting with
`/services/`, `/configurations/`, `/routes/` yield the detail pages, and
every other path yields a Not Found response whose text contains the
content path; an exact path never satisfies its own prefix test, so
`/services` never reaches the detail handler. -/
theorem contentHandler_routing (p : MyPlugin) (client : DashboardClient)
    (r : ContentRequest) :
    (r.contentPath = "" →
      contentHandler p client r = knativeOverviewHandler p client r) ∧
    (r.contentPath = "/services" →
      contentHandler p client r = serviceListingHandler p client r) ∧
    (jsStartsWith r.contentPath "/services/" = true →
      contentHandler p client r = serviceDetailHandler p client r) ∧
    (r.contentPath = "/configurations" →
      contentHandler p client r = configurationListingHandler p client r) ∧
    (jsStartsWith r.contentPath "/configurations/" = true →
      contentHandler p client r = configurationDetailHandler p client r) ∧
    (r.contentPath = "/routes" →
      contentHandler p client r = routeListingHandler p client r) ∧
    (jsStartsWith r.contentPath "/routes/" = true →
      contentHandler p client r = routeDetailHandler p client r) ∧
    (jsStartsWith "/services" "/services/" = false ∧
      jsStartsWith "/configurations" "/configurations/" = false ∧
      jsStartsWith "/routes" "/routes/" = false) ∧
    (r.contentPath ≠ "" → r.contentPath ≠ "/services" →
      jsStartsWith r.contentPath "/services/" = false →
      r.contentPath ≠ "/configurations" →
      jsStartsWith r.contentPath "/configurations/" = false →
      r.contentPath ≠ "/routes" →
      jsStartsWith r.contentPath "/routes/" = false →
      contentHandler p client r = .ok (notFoundResponse r.contentPath) ∧
      ∃ before after : String,
        "Not Found - " ++ r.contentPath = before ++ r.contentPath ++ after) := by
  refine ⟨route_overview p client r, route_serviceListing p client r,
    route_serviceDetail p client r, route_configurationListing p client r,
    route_configurationDetail p client r, route_routeListing p client r,
    route_routeDetail p client r, by decide, ?_⟩
  intro h0 h1 h2 h3 h4 h5 h6
  exact ⟨route_notFound p client r h0 h1 h2 h3 h4 h5 h6,
    "Not Found - ", "", by simp⟩

theorem contentHandler_routing_witness :
    contentHandler MyPlugin.start emptyClient { contentPath := "/bogus" } =
      .ok (notFoundResponse "/bogus") :=
  ((contentHandler_routing MyPlugin.start emptyClient
      { contentPath := "/bogus" }).2.2.2.2.2.2.2.2 (by decide) (by decide)
      (by decide) (by decide) (by decide) (by decide) (by decide)).1

/-- C5: `navigationHandler` always returns a tree rooted at a "Knative"
entry with path "knative" whose children are, in order, Services
(path "services"), Configurations (path "configurations") and Routes
(path "routes"). -/
theorem navigationHandler_tree (p : MyPlugin) :
    navigationHandler p =
      { title := "Knative", path := "knative", icon := "cloud",
        children := [{ title := "Services", path := "services" },
                     { title := "Configurations", path := "configurations" },
                     { title := "Routes", path := "routes" }] } :=
  rfl

/-- C8: `actionHandler` mutates the plugin only for the action name
`action.octant.dev/setNamespace`, where it sets the namespace from the
payload; every other action name (including `knative/testAction`) leaves
the plugin unchanged, and no path returns a response value. -/
theorem actionHandler_frame (p : MyPlugin) (request : ActionRequest) :
    (request.actionName = "action.octant.dev/setNamespace" →
      actionHandler p request = ({ p with nspace := request.payload.nspace }, none)) ∧
    (request.actionName ≠ "action.octant.dev/setNamespace" →
      actionHandler p request = (p, none)) ∧
    (actionHandler p request).2 = none := by
  refine ⟨fun h => by simp [actionHandler, h], fun h => by simp [actionHandler, h], ?_⟩
  by_cases h : request.actionName = "action.octant.dev/setNamespace" <;>
    simp [actionHandler, h]

theorem actionHandler_frame_witness :
    actionHandler MyPlugin.start
        { actionName := "knative/testAction", payload := { nspace := "other" } } =
      (MyPlugin.start, none) :=
  (actionHandler_frame MyPlugin.start
      { actionName := "knative/testAction", payload := { nspace := "other" } }).2.1
    (by decide)

/-- C9: `printHandler` and `tabHandler` unconditionally throw for every
request and plugin state, and return no response. -/
theorem printHandler_tabHandler_throw (p : MyPlugin) (request : ObjectRequest) :
    printHandler p request =
      .error "KnativePlugin#printHandler should never be called" ∧
    tabHandler p request =
      .error "KnativePlugin#tabHandler should never be called" :=
  ⟨rfl, rfl⟩

/-- C6: the content pipeline is deterministic: with the same plugin state
and host clients returning the same results, `contentHandler` produces
equal responses, and the revision sort is a well-defined function of its
input list (also when generations tie or fail to parse). -/
theorem contentHandler_deterministic (p : MyPlugin) (c₁ c₂ : DashboardClient)
    (r : ContentRequest)
    (hget : ∀ q, c₁.get q = c₂.get q) (hlist : ∀ q, c₁.list q = c₂.list q) :
    contentHandler p c₁ r = contentHandler p c₂ r ∧
    ∀ l₁ l₂ : List Revision, l₁ = l₂ → sortRevisions l₁ = sortRevisions l₂ := by
  obtain ⟨g₁, f₁⟩ := c₁
  obtain ⟨g₂, f₂⟩ := c₂
  have hg : g₁ = g₂ := funext hget
  have hf : f₁ = f₂ := funext hlist
  subst hg
  subst hf
  exact ⟨rfl, fun l₁ l₂ h => by rw [h]⟩

theorem contentHandler_deterministic_witness :
    contentHandler MyPlugin.start emptyClient { contentPath := "" } =
      contentHandler MyPlugin.start emptyClient { contentPath := "" } :=
  (contentHandler_deterministic MyPlugin.start emptyClient emptyClient
      { contentPath := "" } (fun _ => rfl) (fun _ => rfl)).1

/-! ## Name comparator facts -/

theorem byNameLe_trans {x y z : KubeObject} (h₁ : byNameLe x y = true)
    (h₂ : byNameLe y z = true) : byNameLe x z = true := by
  simp only [byNameLe, decide_eq_true_eq] at h₁ h₂ ⊢
  exact le_trans h₁ h₂

theorem byNameLe_flip {x y : KubeObject} (h : byNameLe x y = false) :
    byNameLe y x = true := by
  simp only [byNameLe, decide_eq_false_iff_not, decide_eq_true_eq] at h ⊢
  exact le_of_not_le h

/-- C3: each listing returns the fetched objects sorted ascending by
`metadata.name` (missing name treated as the empty string): the output is
the name-sort of the client's list, which is a permutation of it and is
pairwise ordered under the name comparator. -/
theorem listing_sorted_by_name (p : MyPlugin) (client : DashboardClient)
    (fm : Option (List Component)) :
    (∀ l, client.list (servicesListReq p) = .ok l →
      serviceListing p client fm = .ok (.serviceList (sortByName l) fm)) ∧
    (∀ l, client.list (configurationsListReq p) = .ok l →
      configurationListing p client fm = .ok (.configurationList (sortByName l) fm)) ∧
    (∀ l, client.list (routesListReq p) = .ok l →
      routeListing p client fm = .ok (.routeList (sortByName l) fm)) ∧
    (∀ l, List.Perm (sortByName l) l) ∧
    (∀ l, (sortByName l).Pairwise (fun a b => byNameLe a b = true)) ∧
    (∀ o : KubeObject, o.metadata.name = none → nameOrEmpty o = "") := by
  refine ⟨fun l h => by simp [serviceListing, h],
    fun l h => by simp [configurationListing, h],
    fun l h => by simp [routeListing, h],
    fun l => perm_insertionSort byNameLe l,
    fun l => pairwise_insertionSort_of byNameLe _ (fun x y h => h)
      (fun x y z hxy hyz => byNameLe_trans hxy hyz)
      (fun x y h => byNameLe_flip h) l,
    fun o h => by simp [nameOrEmpty, h, jsOrElse]⟩

theorem listing_sorted_by_name_witness :
    serviceListing MyPlugin.start emptyClient none =
      .ok (.serviceList (sortByName []) none) :=
  (listing_sorted_by_name MyPlugin.start emptyClient none).1 [] rfl

/-! ## Revision comparator facts -/

/-- The labels map is absent or lacks the generation key. -/
def lacksGenerationLabel (r : Revision) : Prop :=
  (r.metadata.labels.getD []).lookup configurationGenerationLabel = none

instance (r : Revision) : Decidable (lacksGenerationLabel r) := by
  unfold lacksGenerationLabel; infer_instance

/-- The parsed generation exists and is non-negative. -/
def nonnegGen (r : Revision) : Prop :=
  ∃ g, effGen r = some g ∧ 0 ≤ g

/-- Any two revisions whose generation labels parse appear in ascending
parsed order. -/
def genAscending (a b : Revision) : Prop :=
  ∀ x y, effGen a = some x → effGen b = some y → x ≤ y

theorem effGen_of_lacks {r : Revision} (h : lacksGenerationLabel r) :
    effGen r = some (-1) := by
  unfold lacksGenerationLabel at h
  unfold effGen generationStr
  rw [h]
  decide

theorem revLe_some {a b : Revision} {x y : Int} (ha : effGen a = some x)
    (hb : effGen b = some y) : revLe a b = decide (x - y ≤ 0) := by
  unfold revLe
  rw [ha, hb]

theorem revLe_ascending {x y : Revision} (h : revLe x y = true) : genAscending x y := by
  intro gx gy hgx hgy
  rw [revLe_some hgx hgy] at h
  simp only [decide_eq_true_eq] at h
  omega

theorem revLe_ascending_trans {x y z : Revision} (h : revLe x y = true)
    (hyz : genAscending y z) : genAscending x z := by
  intro gx gz hgx hgz
  unfold revLe at h
  rw [hgx] at h
  cases hy : effGen y with
  | none => rw [hy] at h; exact absurd h (by simp)
  | some gy =>
    rw [hy] at h
    simp only [decide_eq_true_eq] at h
    have := hyz gy gz hy hgz
    omega

theorem revLe_false_ascending {x y : Revision} (h : revLe x y = false) :
    genAscending y x := by
  intro gy gx hgy hgx
  rw [revLe_some hgx hgy] at h
  simp only [decide_eq_false_iff_not] at h
  omega

theorem revLe_no_inversion {x y : Revision} (h : revLe x y = true) :
    ¬(nonnegGen x ∧ lacksGenerationLabel y) := by
  rintro ⟨⟨g, hg, hg0⟩, hy⟩
  rw [revLe_some hg (effGen_of_lacks hy)] at h
  simp only [decide_eq_true_eq] at h
  omega

theorem revLe_no_inversion_trans {x y z : Revision} (h : revLe x y = true)
    (hyz : ¬(nonnegGen y ∧ lacksGenerationLabel z)) :
    ¬(nonnegGen x ∧ lacksGenerationLabel z) := by
  rintro ⟨⟨g, hg, hg0⟩, hz⟩
  unfold revLe at h
  rw [hg] at h
  cases hy : effGen y with
  | none => rw [hy] at h; exact absurd h (by simp)
  | some gy =>
    rw [hy] at h
    simp only [decide_eq_true_eq] at h
    exact hyz ⟨⟨gy, hy, by omega⟩, hz⟩

theorem revLe_false_no_inversion {x y : Revision} (h : revLe x y = false) :
    ¬(nonnegGen y ∧ lacksGenerationLabel x) := by
  rintro ⟨⟨g, hg, hg0⟩, hx⟩
  rw [revLe_some (effGen_of_lacks hx) hg] at h
  simp only [decide_eq_false_iff_not] at h
  omega

/-- C2: in `serviceDetail` and `configurationDetail` the fetched revisions
are sorted ascending by the generation parsed from the
`serving.knative.dev/configurationGeneration` label; a revision whose
labels map is absent or lacks the key gets the value parsed from "-1",
namely -1, and in the sorted output no revision with a non-negative parsed
generation ever precedes a label-less revision. -/
theorem revision_sort_ascending (p : MyPlugin) (client : DashboardClient)
    (name : String) :
    (∀ r : Revision, lacksGenerationLabel r → effGen r = some (-1)) ∧
    (∀ l : List Revision, List.Perm (sortRevisions l) l) ∧
    (∀ l : List Revision, (sortRevisions l).Pairwise genAscending) ∧
    (∀ l : List Revision, (sortRevisions l).Pairwise
      (fun a b => ¬(nonnegGen a ∧ lacksGenerationLabel b))) ∧
    (∀ service revs, client.get (getServiceReq p name) = .ok service →
      client.list (revisionsForServiceReq p service.metadata.name) = .ok revs →
      serviceDetail p client name =
        .ok [.serviceSummary service (sortRevisions revs), .editor service]) ∧
    (∀ configuration revs, client.get (getConfigurationReq p name) = .ok configuration →
      client.list (revisionsForConfigurationReq p configuration.metadata.name) = .ok revs →
      configurationDetail p client name =
        .ok [.configurationSummary configuration (sortRevisions revs),
             .editor configuration]) := by
  refine ⟨fun r h => effGen_of_lacks h,
    fun l => perm_insertionSort revLe l,
    fun l => pairwise_insertionSort_of revLe genAscending
      (fun x y h => revLe_ascending h)
      (fun x y z hxy hyz => revLe_ascending_trans hxy hyz)
      (fun x y h => revLe_false_ascending h) l,
    fun l => pairwise_insertionSort_of revLe _
      (fun x y h => revLe_no_inversion h)
      (fun x y z hxy hyz => revLe_no_inversion_trans hxy hyz)
      (fun x y h => revLe_false_no_inversion h) l,
    fun service revs hg hl => by simp [serviceDetail, hg, hl],
    fun configuration revs hg hl => by simp [configurationDetail, hg, hl]⟩

/-! Concrete revisions exercised by the C2 witness: `revGen2` carries
generation label "2", `revNoLabel` has no labels map. -/

def revGen2 : Revision :=
  { apiVersion := "serving.knative.dev/v1", kind := "Revision",
    metadata := { name := some "svc-00002", nspace := some "default",
                  labels := some [(configurationGenerationLabel, "2")] } }

def revNoLabel : Revision :=
  { apiVersion := "serving.knative.dev/v1", kind := "Revision",
    metadata := { name := some "svc-orphan", nspace := some "default",
                  labels := none } }

def svcObj : Service :=
  { apiVersion := "serving.knative.dev/v1", kind := "Service",
    metadata := { name := some "svc", nspace := some "default", labels := none } }

/-- A host client whose `Get` returns `svcObj` and whose `List` returns
the two fixture revisions (out of order). -/
def detailClient : DashboardClient :=
  { get := fun _ => .ok svcObj, list := fun _ => .ok [revGen2, revNoLabel] }

theorem revision_sort_ascending_witness :
    serviceDetail MyPlugin.start detailClient "svc" =
      .ok [.serviceSummary svcObj (sortRevisions [revGen2, revNoLabel]),
           .editor svcObj] :=
  (revision_sort_ascending MyPlugin.start detailClient "svc").2.2.2.2.1
    svcObj [revGen2, revNoLabel] rfl rfl

/-- C4: the Service detail page shows exactly the revisions the client
returns for the selector `serving.knative.dev/service = service name`, the
Configuration detail page those for
`serving.knative.dev/configuration = configuration name`, and the Route
detail page does not fetch revisions (its output is independent of the
client's `List` operation). -/
theorem detail_revision_fetch (p : MyPlugin) (client : DashboardClient)
    (name : String) :
    (∀ nm, (revisionsForServiceReq p nm).selector =
        some [("serving.knative.dev/service", nm)] ∧
      (revisionsForServiceReq p nm).kind = "Revision" ∧
      (revisionsForServiceReq p nm).nspace = p.nspace) ∧
    (∀ nm, (revisionsForConfigurationReq p nm).selector =
        some [("serving.knative.dev/configuration", nm)] ∧
      (revisionsForConfigurationReq p nm).kind = "Revision" ∧
      (revisionsForConfigurationReq p nm).nspace = p.nspace) ∧
    (∀ service revs, client.get (getServiceReq p name) = .ok service →
      client.list (revisionsForServiceReq p service.metadata.name) = .ok revs →
      serviceDetail p client name =
        .ok [.serviceSummary service (sortRevisions revs), .editor service] ∧
      List.Perm (sortRevisions revs) revs) ∧
    (∀ configuration revs, client.get (getConfigurationReq p name) = .ok configuration →
      client.list (revisionsForConfigurationReq p configuration.metadata.name) = .ok revs →
      configurationDetail p client name =
        .ok [.configurationSummary configuration (sortRevisions revs),
             .editor configuration] ∧
      List.Perm (sortRevisions revs) revs) ∧
    (∀ c₂ : DashboardClient, (∀ q, client.get q = c₂.get q) →
      routeDetail p client name = routeDetail p c₂ name) := by
  refine ⟨fun nm => ⟨rfl, rfl, rfl⟩, fun nm => ⟨rfl, rfl, rfl⟩,
    fun service revs hg hl =>
      ⟨by simp [serviceDetail, hg, hl], perm_insertionSort revLe revs⟩,
    fun configuration revs hg hl =>
      ⟨by simp [configurationDetail, hg, hl], perm_insertionSort revLe revs⟩,
    fun c₂ hget => ?_⟩
  unfold routeDetail
  rw [hget (getRouteReq p name)]

theorem detail_revision_fetch_witness :
    serviceDetail MyPlugin.start detailClient "svc" =
      .ok [.serviceSummary svcObj (sortRevisions [revGen2, revNoLabel]),
           .editor svcObj] ∧
    List.Perm (sortRevisions [revGen2, revNoLabel]) [revGen2, revNoLabel] :=
  (detail_revision_fetch MyPlugin.start detailClient "svc").2.2.1
    svcObj [revGen2, revNoLabel] rfl rfl

/-- C7: the content handlers add no failure handling of their own: a
failing client call is propagated unchanged through the listing bodies,
the detail bodies and `contentHandler`, and a successful `List` result is
handed to the view factory in full (sorted, a permutation of the input,
never filtered). -/
theorem handlers_propagate_errors (p : MyPlugin) (client : DashboardClient)
    (fm : Option (List Component)) (r : ContentRequest) (e : String) :
    (client.list (servicesListReq p) = .error e →
      serviceListing p client fm = .error e ∧
      serviceListingHandler p client r = .error e ∧
      knativeOverviewHandler p client r = .error e) ∧
    (client.list (configurationsListReq p) = .error e →
      configurationListing p client fm = .error e ∧
      configurationListingHandler p client r = .error e) ∧
    (client.list (routesListReq p) = .error e →
      routeListing p client fm = .error e ∧
      routeListingHandler p client r = .error e) ∧
    (r.contentPath = "/services" → client.list (servicesListReq p) = .error e →
      contentHandler p client r = .error e) ∧
    (∀ name, client.get (getServiceReq p name) = .error e →
      serviceDetail p client name = .error e) ∧
    (∀ name service, client.get (getServiceReq p name) = .ok service →
      client.list (revisionsForServiceReq p service.metadata.name) = .error e →
      serviceDetail p client name = .error e) ∧
    (∀ name, client.get (getConfigurationReq p name) = .error e →
      configurationDetail p client name = .error e) ∧
    (∀ name configuration, client.get (getConfigurationReq p name) = .ok configuration →
      client.list (revisionsForConfigurationReq p configuration.metadata.name) = .error e →
      configurationDetail p client name = .error e) ∧
    (∀ name, client.get (getRouteReq p name) = .error e →
      routeDetail p client name = .error e) ∧
    (jsStartsWith r.contentPath "/services/" = true →
      client.get (getServiceReq p (detailName r)) = .error e →
      contentHandler p client r = .error e) ∧
    (∀ l, client.list (servicesListReq p) = .ok l →
      serviceListing p client fm = .ok (.serviceList (sortByName l) fm) ∧
      List.Perm (sortByName l) l) := by
  refine ⟨fun h => ⟨by simp [serviceListing, h],
      by simp [serviceListingHandler, serviceListing, h],
      by simp [knativeOverviewHandler, serviceListing, h]⟩,
    fun h => ⟨by simp [configurationListing, h],
      by simp [configurationListingHandler, configurationListing, h]⟩,
    fun h => ⟨by simp [routeListing, h],
      by simp [routeListingHandler, routeListing, h]⟩,
    fun hp h => ?_,
    fun name h => by simp [serviceDetail, h],
    fun name service hg hl => by simp [serviceDetail, hg, hl],
    fun name h => by simp [configurationDetail, h],
    fun name configuration hg hl => by simp [configurationDetail, hg, hl],
    fun name h => by simp [routeDetail, h],
    fun hp h => ?_,
    fun l h => ⟨by simp [serviceListing, h], perm_insertionSort byNameLe l⟩⟩
  · rw [route_serviceListing p client r hp]
    simp [serviceListingHandler, serviceListing, h]
  · rw [route_serviceDetail p client r hp]
    simp [serviceDetailHandler, serviceDetail, h]

/-- A host client that throws on every call. -/
def failingClient : DashboardClient :=
  { get := fun _ => .error "boom", list := fun _ => .error "boom" }

theorem handlers_propagate_errors_witness :
    contentHandler MyPlugin.start failingClient { contentPath := "/services" } =
      .error "boom" :=
  (handlers_propagate_errors MyPlugin.start failingClient none
      { contentPath := "/services" } "boom").2.2.2.1 rfl rfl

/-! ## Path-segment lemmas for the detail handlers -/

theorem splitSlash_slash_append (a b : List Char) (h : ¬ '/' ∈ a) :
    splitSlash (a ++ '/' :: b) = a :: splitSlash b := by
  induction a with
  | nil => simp [splitSlash]
  | cons c cs ih =>
    have hc : ¬ c = '/' := fun hc => h (by simp [hc])
    have hcs : ¬ '/' ∈ cs := fun hm => h (by simp [hm])
    simp only [List.cons_append, splitSlash, if_neg hc]
    rw [show cs.append ('/' :: b) = cs ++ '/' :: b from rfl, ih hcs]

theorem splitSlash_no_slash (a : List Char) (h : ¬ '/' ∈ a) : splitSlash a = [a] := by
  induction a with
  | nil => rfl
  | cons c cs ih =>
    have hc : ¬ c = '/' := fun hc => h (by simp [hc])
    have hcs : ¬ '/' ∈ cs := fun hm => h (by simp [hm])
    simp only [splitSlash, if_neg hc, ih hcs]

/-- On `/seg1/name/rest…` the extracted name is the second slash-separated
segment, whatever follows. -/
theorem detailName_segments (seg1 name rest : String)
    (h1 : ¬ '/' ∈ seg1.data) (hn : ¬ '/' ∈ name.data) :
    detailName { contentPath := "/" ++ seg1 ++ "/" ++ name ++ "/" ++ rest } = name := by
  unfold detailName jsSplitSlash
  have hdata : ("/" ++ seg1 ++ "/" ++ name ++ "/" ++ rest).data
      = '/' :: (seg1.data ++ '/' :: (name.data ++ '/' :: rest.data)) := by
    show ['/'] ++ seg1.data ++ ['/'] ++ name.data ++ ['/'] ++ rest.data
        = '/' :: (seg1.data ++ '/' :: (name.data ++ '/' :: rest.data))
    simp [List.append_assoc]
  rw [hdata]
  rw [show splitSlash ('/' :: (seg1.data ++ '/' :: (name.data ++ '/' :: rest.data)))
      = [] :: splitSlash (seg1.data ++ '/' :: (name.data ++ '/' :: rest.data)) from by
    simp [splitSlash]]
  rw [splitSlash_slash_append _ _ h1, splitSlash_slash_append _ _ hn]
  rfl

/-- On `/seg1/name` with no further slash the extracted name is the final
segment. -/
theorem detailName_two_segments (seg1 name : String)
    (h1 : ¬ '/' ∈ seg1.data) (hn : ¬ '/' ∈ name.data) :
    detailName { contentPath := "/" ++ seg1 ++ "/" ++ name } = name := by
  unfold detailName jsSplitSlash
  have hdata : ("/" ++ seg1 ++ "/" ++ name).data
      = '/' :: (seg1.data ++ '/' :: name.data) := by
    show ['/'] ++ seg1.data ++ ['/'] ++ name.data
        = '/' :: (seg1.data ++ '/' :: name.data)
    simp [List.append_assoc]
  rw [hdata]
  rw [show splitSlash ('/' :: (seg1.data ++ '/' :: name.data))
      = [] :: splitSlash (seg1.data ++ '/' :: name.data) from by simp [splitSlash]]
  rw [splitSlash_slash_append _ _ h1, splitSlash_no_slash _ hn]
  rfl

/-- C10: on every detail path the resource name is index 2 of the
slash-split of the content path (further segments ignored, empty second
segment giving the empty string), the displayed title ends in that name,
and the Delete button payload carries exactly that name together with the
plugin's current namespace. -/
theorem detail_name_payload (p : MyPlugin) (client : DashboardClient)
    (r : ContentRequest) :
    (detailName r = (jsSplitSlash r.contentPath).getD 2 "") ∧
    (∀ seg1 name rest : String, ¬ '/' ∈ seg1.data → ¬ '/' ∈ name.data →
      detailName { contentPath := "/" ++ seg1 ++ "/" ++ name ++ "/" ++ rest } = name ∧
      detailName { contentPath := "/" ++ seg1 ++ "/" ++ name } = name) ∧
    (detailName { contentPath := "/services/" } = "" ∧
      detailName { contentPath := "/configurations/" } = "" ∧
      detailName { contentPath := "/routes/" } = "") ∧
    (∀ body, serviceDetail p client (detailName r) = .ok body →
      serviceDetailHandler p client r = .ok
        { title := [.link "Knative" "/knative", .link "Services" "/knative/services",
                    .text (detailName r)],
          components := body,
          buttonGroup := some [serviceDetailButton p (detailName r)] }) ∧
    (∀ body, configurationDetail p client (detailName r) = .ok body →
      configurationDetailHandler p client r = .ok
        { title := [.link "Knative" "/knative",
                    .link "Configurations" "/knative/configurations",
                    .text (detailName r)],
          components := body,
          buttonGroup := some [configurationDetailButton p (detailName r)] }) ∧
    (∀ body, routeDetail p client (detailName r) = .ok body →
      routeDetailHandler p client r = .ok
        { title := [.link "Knative" "/knative", .link "Routes" "/knative/routes",
                    .text (detailName r)],
          components := body,
          buttonGroup := some [routeDetailButton p (detailName r)] }) ∧
    ((serviceDetailButton p (detailName r)).payload.name = detailName r ∧
      (serviceDetailButton p (detailName r)).payload.nspace = p.nspace ∧
      (configurationDetailButton p (detailName r)).payload.name = detailName r ∧
      (configurationDetailButton p (detailName r)).payload.nspace = p.nspace ∧
      (routeDetailButton p (detailName r)).payload.name = detailName r ∧
      (routeDetailButton p (detailName r)).payload.nspace = p.nspace) := by
  refine ⟨rfl,
    fun seg1 name rest h1 hn =>
      ⟨detailName_segments seg1 name rest h1 hn,
       detailName_two_segments seg1 name h1 hn⟩,
    ⟨by decide, by decide, by decide⟩,
    fun body h => by simp [serviceDetailHandler, h],
    fun body h => by simp [configurationDetailHandler, h],
    fun body h => by simp [routeDetailHandler, h],
    rfl, rfl, rfl, rfl, rfl, rfl⟩

theorem detail_name_payload_witness :
    detailName { contentPath := "/services/foo/extra" } = "foo" ∧
    (serviceDetailButton MyPlugin.start
        (detailName { contentPath := "/services/foo/extra" })).payload.name =
      detailName { contentPath := "/services/foo/extra" } :=
  ⟨((detail_name_payload MyPlugin.start emptyClient
        { contentPath := "/services/foo/extra" }).2.1 "services" "foo" "extra"
      (by decide) (by decide)).1,
    (detail_name_payload MyPlugin.start emptyClient
        { contentPath := "/services/foo/extra" }).2.2.2.2.2.2.1⟩
